import Mathlib

/-!
Verification of the window animation engine of the flutter Windows embedder
(`shell/platform/windows/window_api.cc` / `window_api_timer.h`).

The C++ code is shallowly embedded: `double` becomes `ℝ`, `DWORD`/`UINT_PTR`
become `ℕ`, `LONG` becomes `ℤ`, window handles become `Option ℕ` (with `none`
for a null `HWND`), `std::function<void()>` completion callbacks become opaque
tokens `Option ℕ`, and every externally observable side effect (SetWindowPos,
KillTimer, SetTimer, SetLayeredWindowAttributes, DwmFlush, firing a callback)
is recorded in an explicit event trace.  Inputs that the code reads from the
operating system (QueryPerformanceCounter elapsed time, DPI, DWM frame
rectangles, layered-window attributes) are passed in as explicit parameters.
-/

/-- `enum class AnimationEasingType` from `window_api.h`. -/
inductive AnimationEasingType
  | kLinear
  | kEaseIn
  | kEaseOut
  | kEaseInOut
  | kSpringBounce
  | kOvershoot
deriving DecidableEq, Repr

/-- `enum class AnimationPropertyType` from `window_api.h`. -/
inductive AnimationPropertyType
  | kPosition
  | kSize
  | kBounds
  | kOpacity
deriving DecidableEq, Repr

/-- The pair of controller members `spring_damping_` / `spring_stiffness_`. -/
structure SpringParams where
  damping : ℝ
  stiffness : ℝ

/-- `WindowApi::CalculateSpringBounce(t, damping, stiffness)`:
damped harmonic oscillator displacement, with the `t >= 1` / `t <= 0`
bypasses first and the final clamp of the oscillator result into `[0, 1]`. -/
noncomputable def CalculateSpringBounce (t damping stiffness : ℝ) : ℝ :=
  if 1 ≤ t then 1
  else if t ≤ 0 then 0
  else
    let omega := Real.sqrt stiffness
    let zeta := damping
    let result :=
      if zeta < 1 then
        let omega_d := omega * Real.sqrt (1 - zeta * zeta)
        let decay := Real.exp (-(zeta * omega * t))
        1 - decay * (Real.cos (omega_d * t) +
          zeta * omega / omega_d * Real.sin (omega_d * t))
      else if zeta = 1 then
        let decay := Real.exp (-(omega * t))
        1 - decay * (1 + omega * t)
      else
        let s1 := -(omega * (zeta + Real.sqrt (zeta * zeta - 1)))
        let s2 := -(omega * (zeta - Real.sqrt (zeta * zeta - 1)))
        1 - (s2 * Real.exp (s1 * t) - s1 * Real.exp (s2 * t)) / (s2 - s1)
    max 0 (min 1 result)

/-- `WindowApi::CalculateEasing(t, easing)`: clamps `t` to `[0, 1]`, then
dispatches on the easing kind.  The spring case reads the controller members
`spring_damping_` / `spring_stiffness_`, passed here as `sp`. -/
noncomputable def CalculateEasing (sp : SpringParams) (t0 : ℝ)
    (easing : AnimationEasingType) : ℝ :=
  let t := max 0 (min 1 t0)
  match easing with
  | .kLinear => t
  | .kEaseIn => t * t
  | .kEaseOut => 1 - (1 - t) * (1 - t)
  | .kEaseInOut =>
      if t < 0.5 then 2 * t * t else 1 - (-2 * t + 2) ^ 2 / 2
  | .kSpringBounce => CalculateSpringBounce t sp.damping sp.stiffness
  | .kOvershoot =>
      1 + (1.70158 + 1) * (t - 1) ^ 3 + 1.70158 * (t - 1) ^ 2

/-- Clamping of `t` below 0 in `CalculateEasing`. -/
theorem calcEasing_clamp_lo (sp : SpringParams) (t0 : ℝ) (k : AnimationEasingType)
    (h : t0 ≤ 0) : CalculateEasing sp t0 k = CalculateEasing sp 0 k := by
  have h1 : min 1 t0 = t0 := min_eq_right (h.trans zero_le_one)
  have h2 : max 0 t0 = 0 := max_eq_left h
  have h3 : max (0 : ℝ) (min 1 0) = 0 := by norm_num
  unfold CalculateEasing
  rw [h1, h2, h3]

/-- Clamping of `t` above 1 in `CalculateEasing`. -/
theorem calcEasing_clamp_hi (sp : SpringParams) (t0 : ℝ) (k : AnimationEasingType)
    (h : 1 ≤ t0) : CalculateEasing sp t0 k = CalculateEasing sp 1 k := by
  have h1 : min 1 t0 = 1 := min_eq_left h
  have h2 : max (0 : ℝ) 1 = 1 := by norm_num
  have h3 : max (0 : ℝ) (min 1 1) = 1 := by norm_num
  unfold CalculateEasing
  rw [h1, h2, h3]

/-- The `t <= 0` bypass of `CalculateSpringBounce`. -/
theorem springBounce_of_nonpos (damping stiffness t : ℝ) (h : t ≤ 0) :
    CalculateSpringBounce t damping stiffness = 0 := by
  unfold CalculateSpringBounce
  rcases le_or_lt 1 t with h1 | h1
  · simp only [if_pos h1]
    linarith
  · simp [not_le.mpr h1, h]

/-- The `t >= 1` bypass of `CalculateSpringBounce`. -/
theorem springBounce_of_one_le (damping stiffness t : ℝ) (h : 1 ≤ t) :
    CalculateSpringBounce t damping stiffness = 1 := by
  unfold CalculateSpringBounce
  simp [h]

/-- The output of `CalculateSpringBounce` is never below 0. -/
theorem springBounce_nonneg (damping stiffness t : ℝ) :
    0 ≤ CalculateSpringBounce t damping stiffness := by
  unfold CalculateSpringBounce
  rcases le_or_lt 1 t with h1 | h1
  · simp [h1]
  · rcases le_or_lt t 0 with h0 | h0
    · simp [not_le.mpr h1, h0]
    · simp only [not_le.mpr h1, if_false, not_le.mpr h0]
      exact le_max_left 0 _

/-- The output of `CalculateSpringBounce` is never above 1. -/
theorem springBounce_le_one (damping stiffness t : ℝ) :
    CalculateSpringBounce t damping stiffness ≤ 1 := by
  unfold CalculateSpringBounce
  rcases le_or_lt 1 t with h1 | h1
  · simp [h1]
  · rcases le_or_lt t 0 with h0 | h0
    · simp [not_le.mpr h1, h0]
    · simp only [not_le.mpr h1, if_false, not_le.mpr h0]
      exact max_le zero_le_one (min_le_left 1 _)

/-- Every easing kind evaluates to exactly 1 at `t = 1`. -/
theorem calcEasing_one (sp : SpringParams) (k : AnimationEasingType) :
    CalculateEasing sp 1 k = 1 := by
  have hs := springBounce_of_one_le sp.damping sp.stiffness 1 le_rfl
  cases k <;> unfold CalculateEasing <;> norm_num [hs]

/-- Claim C3: for the SpringBounce easing, for every damping and stiffness,
the eased value at `t = 0` is exactly 0 and at `t = 1` is exactly 1 (the
inputs `t ≤ 0` and `t ≥ 1` bypass the oscillator formula), and for every `t`
the output of `CalculateSpringBounce` lies in `[0, 1]`. -/
theorem spring_bounce_endpoints_and_range (damping stiffness t : ℝ) :
    CalculateSpringBounce 0 damping stiffness = 0 ∧
    CalculateSpringBounce 1 damping stiffness = 1 ∧
    CalculateEasing ⟨damping, stiffness⟩ 0 .kSpringBounce = 0 ∧
    CalculateEasing ⟨damping, stiffness⟩ 1 .kSpringBounce = 1 ∧
    (t ≤ 0 → CalculateSpringBounce t damping stiffness = 0) ∧
    (1 ≤ t → CalculateSpringBounce t damping stiffness = 1) ∧
    0 ≤ CalculateSpringBounce t damping stiffness ∧
    CalculateSpringBounce t damping stiffness ≤ 1 := by
  have hzero := springBounce_of_nonpos damping stiffness 0 le_rfl
  have hone := springBounce_of_one_le damping stiffness 1 le_rfl
  refine ⟨hzero, hone, ?_, ?_,
    springBounce_of_nonpos damping stiffness t,
    springBounce_of_one_le damping stiffness t,
    springBounce_nonneg damping stiffness t,
    springBounce_le_one damping stiffness t⟩
  · unfold CalculateEasing
    norm_num [hzero]
  · unfold CalculateEasing
    norm_num [hone]

/-- Claim C7: for the easing kinds Linear, EaseIn, EaseOut and EaseInOut,
`CalculateEasing` is exactly 0 at `t = 0` and exactly 1 at `t = 1`, and the
input is clamped to `[0, 1]` before evaluation, so every `t < 0` evaluates as
`t = 0` and every `t > 1` evaluates as `t = 1`. -/
theorem basic_easings_endpoints_and_clamp (sp : SpringParams) (t : ℝ)
    (k : AnimationEasingType)
    (hk : k = .kLinear ∨ k = .kEaseIn ∨ k = .kEaseOut ∨ k = .kEaseInOut) :
    CalculateEasing sp 0 k = 0 ∧ CalculateEasing sp 1 k = 1 ∧
    (t < 0 → CalculateEasing sp t k = CalculateEasing sp 0 k) ∧
    (1 < t → CalculateEasing sp t k = CalculateEasing sp 1 k) := by
  refine ⟨?_, ?_, fun h => calcEasing_clamp_lo sp t k h.le,
    fun h => calcEasing_clamp_hi sp t k h.le⟩ <;>
    rcases hk with rfl | rfl | rfl | rfl <;>
      unfold CalculateEasing <;> norm_num

/-- Witness for claim C7 at the concrete kind `kLinear` and `t = 2`. -/
theorem basic_easings_witness :
    CalculateEasing ⟨0.7, 100⟩ 0 .kLinear = 0 ∧
    CalculateEasing ⟨0.7, 100⟩ 1 .kLinear = 1 ∧
    CalculateEasing ⟨0.7, 100⟩ 2 .kLinear = CalculateEasing ⟨0.7, 100⟩ 1 .kLinear := by
  have h := basic_easings_endpoints_and_clamp ⟨0.7, 100⟩ 2 .kLinear (Or.inl rfl)
  exact ⟨h.1, h.2.1, h.2.2.2 (by norm_num)⟩

/-- `struct AnimationRequest` from `window_api.h`, with its field defaults.
The `std::function` completion callback is an opaque token. -/
structure AnimationRequest where
  property : AnimationPropertyType := .kPosition
  easing : AnimationEasingType := .kSpringBounce
  target_x : ℝ := 0
  target_y : ℝ := 0
  target_width : ℝ := 0
  target_height : ℝ := 0
  target_opacity : ℝ := 1
  duration : ℕ := 300
  use_custom_spring : Bool := false
  spring_damping : ℝ := 0.7
  spring_stiffness : ℝ := 100
  on_complete : Option ℕ := none

/-- `struct WindowAnimation` from `window_api.h`, with its field defaults.
`hwnd` is `none` for a null `HWND`. -/
structure WindowAnimation where
  timer_id : ℕ := 0
  hwnd : Option ℕ := none
  property : AnimationPropertyType := .kPosition
  easing : AnimationEasingType := .kSpringBounce
  start_x : ℝ := 0
  start_y : ℝ := 0
  start_width : ℝ := 0
  start_height : ℝ := 0
  start_opacity : ℝ := 1
  target_x : ℝ := 0
  target_y : ℝ := 0
  target_width : ℝ := 0
  target_height : ℝ := 0
  target_opacity : ℝ := 1
  duration : ℕ := 300
  progress : ℝ := 0
  scale_factor : ℝ := 1
  shadow_left : ℤ := 0
  shadow_right : ℤ := 0
  shadow_top : ℤ := 0
  shadow_bottom : ℤ := 0
  spring_damping : ℝ := 0.7
  spring_stiffness : ℝ := 100
  spring_velocity : ℝ := 0
  on_complete : Option ℕ := none
  is_active : Bool := false

/-- C++ `static_cast<int>` on a `double`: truncation toward zero. -/
noncomputable def cppTrunc (x : ℝ) : ℤ := if x < 0 then ⌈x⌉ else ⌊x⌋

/-- The physical placement call issued by `WindowApi::ApplyAnimationFrame`
for one frame (SetWindowPos with the corresponding SWP flags, or
SetLayeredWindowAttributes for opacity). -/
inductive FrameOutput
  | setWindowPos (x y : ℤ)
  | setWindowSize (w h : ℤ)
  | setWindowBounds (x y w h : ℤ)
  | setLayeredAlpha (alpha : ℤ)
deriving DecidableEq

/-- Observable side effects of the animation controller. -/
inductive AnimEvent
  | frameApplied (hwnd : ℕ) (out : FrameOutput)
  | dwmFlush
  | timerKilled (hwnd : ℕ) (timer_id : ℕ)
  | timerSet (hwnd : ℕ) (timer_id : ℕ)
  | callbackFired (cb : ℕ)
  | layeredStyleSet (hwnd : ℕ)
deriving DecidableEq

/-- The placement computation of `WindowApi::ApplyAnimationFrame`: linear
interpolation from start to target at `eased_progress`, scaled by the cached
DPI factor, adjusted by the cached shadow offsets per property kind, with
C++ `static_cast<int>` truncation; opacity is clamped to `[0, 1]` and scaled
to an 8-bit alpha. -/
noncomputable def animationFrameOutput (anim : WindowAnimation)
    (eased_progress : ℝ) : FrameOutput :=
  match anim.property with
  | .kPosition =>
      .setWindowPos
        (cppTrunc ((anim.start_x + (anim.target_x - anim.start_x) * eased_progress) *
            anim.scale_factor) - anim.shadow_left)
        (cppTrunc ((anim.start_y + (anim.target_y - anim.start_y) * eased_progress) *
            anim.scale_factor) - anim.shadow_top)
  | .kSize =>
      .setWindowSize
        (cppTrunc ((anim.start_width +
            (anim.target_width - anim.start_width) * eased_progress) *
            anim.scale_factor) + (anim.shadow_left + anim.shadow_right))
        (cppTrunc ((anim.start_height +
            (anim.target_height - anim.start_height) * eased_progress) *
            anim.scale_factor) + (anim.shadow_top + anim.shadow_bottom))
  | .kBounds =>
      .setWindowBounds
        (cppTrunc ((anim.start_x + (anim.target_x - anim.start_x) * eased_progress) *
            anim.scale_factor) - anim.shadow_left)
        (cppTrunc ((anim.start_y + (anim.target_y - anim.start_y) * eased_progress) *
            anim.scale_factor) - anim.shadow_top)
        (cppTrunc ((anim.start_width +
            (anim.target_width - anim.start_width) * eased_progress) *
            anim.scale_factor) + (anim.shadow_left + anim.shadow_right))
        (cppTrunc ((anim.start_height +
            (anim.target_height - anim.start_height) * eased_progress) *
            anim.scale_factor) + (anim.shadow_top + anim.shadow_bottom))
  | .kOpacity =>
      .setLayeredAlpha
        (cppTrunc (max 0 (min 1 (anim.start_opacity +
            (anim.target_opacity - anim.start_opacity) * eased_progress)) * 255))

/-- `WindowApi::ApplyAnimationFrame`: no-op on a null `hwnd`; otherwise issues
the placement call for the frame and then `DwmFlush()`. -/
noncomputable def ApplyAnimationFrame (anim : WindowAnimation)
    (eased_progress : ℝ) : List AnimEvent :=
  match anim.hwnd with
  | none => []
  | some h => [.frameApplied h (animationFrameOutput anim eased_progress), .dwmFlush]

/-- The `std::unordered_map<UINT_PTR, WindowAnimation> active_animations_`
registry, as an association list (iteration order of the hash map is
unspecified; no property proved here depends on it). -/
abbrev AnimMap := List (ℕ × WindowAnimation)

/-- `active_animations_.erase(key)`. -/
def mapErase (m : AnimMap) (k : ℕ) : AnimMap :=
  m.filter (fun p => ! (p.1 == k))

/-- `active_animations_[key] = value` (insert-or-assign). -/
def mapInsert (m : AnimMap) (k : ℕ) (v : WindowAnimation) : AnimMap :=
  (k, v) :: mapErase m k

/-- The animation-related state of one `WindowApi` controller.
`window_handle` models the `window_` pointer (`none` = null `HostWindow*`)
together with the result of `window_->GetWindowHandle()` (`some none` = null
`HWND`). -/
structure WindowApiState where
  window_handle : Option (Option ℕ)
  active_animations : AnimMap := []
  next_timer_id : ℕ := 1000
  spring_damping : ℝ := 0.7
  spring_stiffness : ℝ := 100

/-- The controller's current spring members, as read by `CalculateEasing`. -/
def springParams (st : WindowApiState) : SpringParams :=
  ⟨st.spring_damping, st.spring_stiffness⟩

/-- `WindowApi::UpdateAnimation(anim)`.  `elapsed` is the value of
`GetElapsedMs(anim.start_time_qpc)` read from the high-resolution clock.
On `elapsed >= duration`: progress forced to 1, final frame applied at eased
progress 1.0, record deactivated, `KillTimer`, then the completion callback.
Otherwise: progress recomputed and the eased frame applied, where the easing
reads the controller's current spring members `sp`. -/
noncomputable def UpdateAnimation (sp : SpringParams) (elapsed : ℝ)
    (anim : WindowAnimation) : WindowAnimation × List AnimEvent :=
  if anim.is_active = false ∨ anim.hwnd = none then (anim, [])
  else if (anim.duration : ℝ) ≤ elapsed then
    ({ anim with progress := 1, is_active := false },
      ApplyAnimationFrame anim 1 ++
        (match anim.hwnd with
          | some h => [.timerKilled h anim.timer_id]
          | none => []) ++
        (match anim.on_complete with
          | some cb => [.callbackFired cb]
          | none => []))
  else
    let progress := elapsed / (anim.duration : ℝ)
    ({ anim with progress := progress },
      ApplyAnimationFrame anim (CalculateEasing sp progress anim.easing))

/-- `WindowApi::OnTimer(wParam, lParam)`: looks the timer id up in
`active_animations_`; returns `false` if it is not ours; erases a record that
was stopped mid-flight; otherwise advances it once and erases it if it
completed. -/
noncomputable def OnTimer (st : WindowApiState) (elapsed : ℝ) (timer_id : ℕ) :
    WindowApiState × List AnimEvent × Bool :=
  match List.lookup timer_id st.active_animations with
  | none => (st, [], false)
  | some anim =>
    if anim.is_active = false then
      ({ st with active_animations := mapErase st.active_animations timer_id },
        [], true)
    else
      let r := UpdateAnimation (springParams st) elapsed anim
      let m1 := mapInsert st.active_animations timer_id r.1
      if r.1.is_active = false then
        ({ st with active_animations := mapErase m1 timer_id }, r.2, true)
      else
        ({ st with active_animations := m1 }, r.2, true)

/-- `WindowApi::StopAnimation(timer_id)`: if the id is present, `KillTimer`
(when the record's `hwnd` is non-null) and erase the record; no completion
callback is ever fired. -/
def StopAnimation (st : WindowApiState) (timer_id : ℕ) :
    WindowApiState × List AnimEvent :=
  match List.lookup timer_id st.active_animations with
  | none => (st, [])
  | some anim =>
    ({ st with active_animations := mapErase st.active_animations timer_id },
      match anim.hwnd with
        | some h => [.timerKilled h timer_id]
        | none => [])

/-- The conflict predicate of `WindowApi::StopConflictingAnimations`:
Position conflicts with Position and Bounds; Size with Size and Bounds;
Bounds with Position, Size and Bounds; Opacity only with Opacity. -/
def conflictsWith (new_property old_property : AnimationPropertyType) : Bool :=
  match new_property with
  | .kPosition =>
      old_property == .kPosition || old_property == .kBounds
  | .kSize =>
      old_property == .kSize || old_property == .kBounds
  | .kBounds =>
      old_property == .kPosition || old_property == .kSize ||
        old_property == .kBounds
  | .kOpacity =>
      old_property == .kOpacity

/-- The `for (UINT_PTR timer_id : to_stop) StopAnimation(timer_id);` loop of
`WindowApi::StopConflictingAnimations`, accumulating the emitted events. -/
def stopAnimationsFold (st : WindowApiState) (evs : List AnimEvent)
    (ks : List ℕ) : WindowApiState × List AnimEvent :=
  ks.foldl
    (fun acc tid =>
      let r := StopAnimation acc.1 tid
      (r.1, acc.2 ++ r.2))
    (st, evs)

/-- `WindowApi::StopConflictingAnimations(new_property)`: collects the ids of
every active record whose property conflicts with `new_property`, then stops
each via `StopAnimation`. -/
def StopConflictingAnimations (st : WindowApiState)
    (new_property : AnimationPropertyType) : WindowApiState × List AnimEvent :=
  stopAnimationsFold st []
    ((st.active_animations.filter
      (fun p => p.2.is_active && conflictsWith new_property p.2.property)).map
      Prod.fst)

/-- `WindowApi::SetSpringParameters(damping, stiffness)`: stores the damping
clamped to `[0.1, 2.0]` and the stiffness clamped to `[10, 500]`. -/
noncomputable def SetSpringParameters (st : WindowApiState)
    (damping stiffness : ℝ) : WindowApiState :=
  { st with
    spring_damping := max 0.1 (min 2 damping)
    spring_stiffness := max 10 (min 500 stiffness) }

/-- A Win32 `RECT` (physical pixels). -/
structure IRect where
  left : ℤ
  top : ℤ
  right : ℤ
  bottom : ℤ
deriving DecidableEq

/-- The operating-system inputs read by `WindowApi::StartAnimation`:
the DPI, the outcome of `DwmGetWindowAttribute(DWMWA_EXTENDED_FRAME_BOUNDS)`
combined with the first `GetWindowRect` (both must succeed for the shadow
offsets to be computed), the bits left in the local `frame_rect` as later read
by the property switch (garbage when the DWM query failed), the rect of the
second `GetWindowRect` fallback in the property switch (`none` = failure),
and the window's layered state: whether `WS_EX_LAYERED` was present in
`GWL_EXSTYLE` before the call, and the `GetLayeredWindowAttributes` result
`(alpha, LWA_ALPHA flag)` (`none` = the call failed). -/
structure StartEnv where
  dpi : ℕ
  dwm_frame_ok : Bool
  frame_rect : IRect
  window_rect : IRect
  fallback_window_rect : Option IRect
  ex_style_layered : Bool
  layered_attrs : Option (ℕ × Bool)

/-- The property switch of `WindowApi::StartAnimation` that fills in the
start and target values of the new record.  For Position the cached
`frame_rect` is used when any of its fields is nonzero; for Size and Bounds
when its width is positive; otherwise `GetWindowRect` is retried, and on
failure the start values keep their zero defaults.  For Opacity the start
opacity is set to 1.0, `WS_EX_LAYERED` is added when absent, and the current
alpha is read back only when the window was already layered before the call
and the `LWA_ALPHA` flag is set. -/
noncomputable def initAnimationValues (anim : WindowAnimation) (env : StartEnv)
    (req : AnimationRequest) (scale_factor : ℝ) (hwnd : ℕ) :
    WindowAnimation × List AnimEvent :=
  match req.property with
  | .kPosition =>
    let anim1 :=
      if env.frame_rect.left ≠ 0 ∨ env.frame_rect.top ≠ 0 ∨
          env.frame_rect.right ≠ 0 ∨ env.frame_rect.bottom ≠ 0 then
        { anim with
          start_x := (env.frame_rect.left : ℝ) / scale_factor
          start_y := (env.frame_rect.top : ℝ) / scale_factor }
      else
        match env.fallback_window_rect with
        | some wr =>
          { anim with
            start_x := (wr.left : ℝ) / scale_factor
            start_y := (wr.top : ℝ) / scale_factor }
        | none => anim
    ({ anim1 with target_x := req.target_x, target_y := req.target_y }, [])
  | .kSize =>
    let anim1 :=
      if 0 < env.frame_rect.right - env.frame_rect.left then
        { anim with
          start_width := ((env.frame_rect.right - env.frame_rect.left : ℤ) : ℝ) /
            scale_factor
          start_height := ((env.frame_rect.bottom - env.frame_rect.top : ℤ) : ℝ) /
            scale_factor }
      else
        match env.fallback_window_rect with
        | some wr =>
          { anim with
            start_width := ((wr.right - wr.left : ℤ) : ℝ) / scale_factor
            start_height := ((wr.bottom - wr.top : ℤ) : ℝ) / scale_factor }
        | none => anim
    ({ anim1 with
        target_width := req.target_width, target_height := req.target_height }, [])
  | .kBounds =>
    let anim1 :=
      if 0 < env.frame_rect.right - env.frame_rect.left then
        { anim with
          start_x := (env.frame_rect.left : ℝ) / scale_factor
          start_y := (env.frame_rect.top : ℝ) / scale_factor
          start_width := ((env.frame_rect.right - env.frame_rect.left : ℤ) : ℝ) /
            scale_factor
          start_height := ((env.frame_rect.bottom - env.frame_rect.top : ℤ) : ℝ) /
            scale_factor }
      else
        match env.fallback_window_rect with
        | some wr =>
          { anim with
            start_x := (wr.left : ℝ) / scale_factor
            start_y := (wr.top : ℝ) / scale_factor
            start_width := ((wr.right - wr.left : ℤ) : ℝ) / scale_factor
            start_height := ((wr.bottom - wr.top : ℤ) : ℝ) / scale_factor }
        | none => anim
    ({ anim1 with
        target_x := req.target_x, target_y := req.target_y
        target_width := req.target_width, target_height := req.target_height }, [])
  | .kOpacity =>
    let anim1 := { anim with start_opacity := 1 }
    let evs := if env.ex_style_layered = false then
        [AnimEvent.layeredStyleSet hwnd] else []
    let anim2 :=
      if env.ex_style_layered = true then
        match env.layered_attrs with
        | some (alpha, flag) =>
          if flag then { anim1 with start_opacity := (alpha : ℝ) / 255 }
          else anim1
        | none => anim1
      else anim1
    ({ anim2 with target_opacity := req.target_opacity }, evs)

/-- The controller state after the optional custom-spring override in
`WindowApi::StartAnimation`: `spring_damping_` and `spring_stiffness_` are
assigned the request's raw values when `use_custom_spring` is set. -/
noncomputable def startSpringOverride (st1 : WindowApiState)
    (req : AnimationRequest) : WindowApiState :=
  if req.use_custom_spring = true then
    { st1 with
      spring_damping := req.spring_damping
      spring_stiffness := req.spring_stiffness }
  else st1

/-- The freshly constructed `WindowAnimation` of `WindowApi::StartAnimation`
before the property switch: fresh id from `next_timer_id_`, active, with the
cached scale factor, shadow offsets and current spring members. -/
noncomputable def startAnim0 (st2 : WindowApiState) (env : StartEnv)
    (req : AnimationRequest) (hwnd : ℕ) (scale_factor : ℝ) : WindowAnimation :=
  { timer_id := st2.next_timer_id
    hwnd := some hwnd
    property := req.property
    easing := req.easing
    duration := req.duration
    spring_damping := st2.spring_damping
    spring_stiffness := st2.spring_stiffness
    on_complete := req.on_complete
    is_active := true
    scale_factor := scale_factor
    shadow_left :=
      if env.dwm_frame_ok then env.frame_rect.left - env.window_rect.left else 0
    shadow_right :=
      if env.dwm_frame_ok then env.window_rect.right - env.frame_rect.right else 0
    shadow_top :=
      if env.dwm_frame_ok then env.frame_rect.top - env.window_rect.top else 0
    shadow_bottom :=
      if env.dwm_frame_ok then env.window_rect.bottom - env.frame_rect.bottom
      else 0 }

/-- The success path of `WindowApi::StartAnimation` (window and handle both
valid): stop conflicting animations, override the controller spring members
when `use_custom_spring` is set, capture the DPI scale factor and the shadow
offsets, build the record with a fresh id drawn from `next_timer_id_++`,
fill in its start/target values, store it and arm its `SetTimer` source. -/
noncomputable def startAnimationCore (st : WindowApiState) (env : StartEnv)
    (req : AnimationRequest) (hwnd : ℕ) :
    WindowApiState × List AnimEvent × ℕ :=
  let r1 := StopConflictingAnimations st req.property
  let st2 := startSpringOverride r1.1 req
  let scale_factor := (env.dpi : ℝ) / 96
  let r2 := initAnimationValues (startAnim0 st2 env req hwnd scale_factor)
    env req scale_factor hwnd
  ({ st2 with
      next_timer_id := st2.next_timer_id + 1
      active_animations := mapInsert st2.active_animations r2.1.timer_id r2.1 },
    r1.2 ++ r2.2 ++ [.timerSet hwnd r2.1.timer_id],
    r2.1.timer_id)

/-- `WindowApi::StartAnimation(request)`: returns the sentinel 0 without any
effect when the `window_` pointer or its `HWND` is null, and otherwise runs
the success path. -/
noncomputable def StartAnimation (st : WindowApiState) (env : StartEnv)
    (req : AnimationRequest) : WindowApiState × List AnimEvent × ℕ :=
  match st.window_handle with
  | none => (st, [], 0)
  | some none => (st, [], 0)
  | some (some hwnd) => startAnimationCore st env req hwnd

/-- The state of the shared tick scheduler `WindowApiTimer` (the
mutex-and-cache variant): last tick time in milliseconds, the registered
consumer set `windowApis_` (consumers as opaque ids; null consumers are
rejected at registration), the cached iteration snapshot `windowApis_cache_`
and the `windowApis_dirty_` flag. -/
structure WindowApiTimerState where
  last_tick_time_ms : ℝ
  windowApis : List ℕ
  windowApis_cache : List ℕ
  windowApis_dirty : Bool

/-- A tick delivered to one registered consumer with an elapsed delta. -/
inductive TickEvent
  | tickDelivered (consumer : ℕ) (delta_ms : ℝ)

/-- `WindowApiTimer::OnTick()`: computes the delta from the high-resolution
clock (`current_time_ms` is the QPC reading converted to milliseconds),
substitutes 16 ms when the delta exceeds 100 ms, rebuilds the cached snapshot
from the registry when the dirty flag is set, then delivers the tick to every
snapshot member. -/
noncomputable def OnTick (st : WindowApiTimerState) (current_time_ms : ℝ) :
    WindowApiTimerState × List TickEvent :=
  let delta0 := current_time_ms - st.last_tick_time_ms
  let delta_ms := if 100 < delta0 then 16 else delta0
  let cache :=
    if st.windowApis_dirty = true then st.windowApis else st.windowApis_cache
  ({ st with
      last_tick_time_ms := current_time_ms
      windowApis_cache := cache
      windowApis_dirty := false },
    cache.map (fun c => .tickDelivered c delta_ms))

/-- Erasing drops a head entry whose key matches. -/
theorem mapErase_cons_self (p : ℕ × WindowAnimation) (m : AnimMap) (k : ℕ)
    (h : p.1 = k) : mapErase (p :: m) k = mapErase m k := by
  simp [mapErase, List.filter_cons, h]

/-- Erasing keeps a head entry whose key differs. -/
theorem mapErase_cons_ne (p : ℕ × WindowAnimation) (m : AnimMap) (k : ℕ)
    (h : ¬ p.1 = k) : mapErase (p :: m) k = p :: mapErase m k := by
  simp [mapErase, List.filter_cons, h]

/-- Erasing a key that is absent leaves the registry unchanged. -/
theorem mapErase_of_lookup_none (m : AnimMap) (k : ℕ)
    (h : List.lookup k m = none) : mapErase m k = m := by
  induction m with
  | nil => rfl
  | cons p m ih =>
    obtain ⟨k', v⟩ := p
    rw [List.lookup_cons] at h
    by_cases hk : k = k'
    · simp [hk] at h
    · have hne : (k == k') = false := beq_eq_false_iff_ne.mpr hk
      rw [hne] at h
      rw [mapErase_cons_ne _ _ _ (fun hh => hk (by simpa using hh.symm)),
        ih (by simpa using h)]

/-- A key is never found after it has been erased. -/
theorem lookup_mapErase_self (m : AnimMap) (k : ℕ) :
    List.lookup k (mapErase m k) = none := by
  induction m with
  | nil => rfl
  | cons p m ih =>
    obtain ⟨k', v⟩ := p
    by_cases hk : k' = k
    · rw [mapErase_cons_self _ _ _ hk]
      exact ih
    · have hne : (k == k') = false :=
        beq_eq_false_iff_ne.mpr (fun hh => hk hh.symm)
      rw [mapErase_cons_ne _ _ _ hk, List.lookup_cons, hne]
      exact ih

/-- Membership after an erase: still in the registry, with a different key. -/
theorem mem_mapErase (m : AnimMap) (k : ℕ) (p : ℕ × WindowAnimation)
    (h : p ∈ mapErase m k) : p ∈ m ∧ p.1 ≠ k := by
  have h2 := List.of_mem_filter h
  exact ⟨List.mem_of_mem_filter h, by simpa using h2⟩

/-- Inserting then erasing the same key is just erasing it. -/
theorem mapErase_mapInsert_self (m : AnimMap) (k : ℕ) (v : WindowAnimation) :
    mapErase (mapInsert m k v) k = mapErase m k := by
  simp [mapInsert, mapErase, List.filter_filter]

/-- Looking up the key just inserted returns the inserted record. -/
theorem lookup_mapInsert_self (m : AnimMap) (k : ℕ) (v : WindowAnimation) :
    List.lookup k (mapInsert m k v) = some v := by
  simp [mapInsert, List.lookup_cons]

/-- `StopAnimation` only ever erases the record with the given key. -/
theorem stopAnimation_state (st : WindowApiState) (tid : ℕ) :
    (StopAnimation st tid).1 =
      { st with active_animations := mapErase st.active_animations tid } := by
  unfold StopAnimation
  cases h : List.lookup tid st.active_animations with
  | none => rw [mapErase_of_lookup_none _ _ h]
  | some anim => rfl

/-- `StopAnimation` never fires a completion callback. -/
theorem stopAnimation_no_callback (st : WindowApiState) (tid cb : ℕ) :
    AnimEvent.callbackFired cb ∉ (StopAnimation st tid).2 := by
  unfold StopAnimation
  cases h : List.lookup tid st.active_animations with
  | none => simp
  | some anim =>
    cases hw : anim.hwnd <;> simp [hw]

/-- One step of the stop loop. -/
theorem stopFold_cons (st : WindowApiState) (evs : List AnimEvent) (k : ℕ)
    (ks : List ℕ) :
    stopAnimationsFold st evs (k :: ks) =
      stopAnimationsFold (StopAnimation st k).1
        (evs ++ (StopAnimation st k).2) ks := rfl

/-- The stop loop erases exactly the listed keys from the registry and
touches nothing else in the controller state. -/
theorem stopFold_state (ks : List ℕ) :
    ∀ (st : WindowApiState) (evs : List AnimEvent),
      (stopAnimationsFold st evs ks).1 =
        { st with
            active_animations := ks.foldl mapErase st.active_animations } := by
  induction ks with
  | nil => intro st evs; rfl
  | cons k ks ih =>
    intro st evs
    rw [stopFold_cons, ih, stopAnimation_state]
    rfl

/-- The stop loop fires no completion callback. -/
theorem stopFold_no_callback (ks : List ℕ) :
    ∀ (st : WindowApiState) (evs : List AnimEvent) (cb : ℕ),
      AnimEvent.callbackFired cb ∉ evs →
      AnimEvent.callbackFired cb ∉ (stopAnimationsFold st evs ks).2 := by
  induction ks with
  | nil => intro st evs cb h; exact h
  | cons k ks ih =>
    intro st evs cb h
    rw [stopFold_cons]
    refine ih (StopAnimation st k).1 _ cb ?_
    intro hmem
    rcases List.mem_append.mp hmem with h1 | h1
    · exact h h1
    · exact stopAnimation_no_callback st k cb h1

/-- Surviving a sequence of erases means surviving each one. -/
theorem mem_foldl_mapErase (ks : List ℕ) :
    ∀ (m : AnimMap) (p : ℕ × WindowAnimation),
      p ∈ ks.foldl mapErase m → p ∈ m ∧ p.1 ∉ ks := by
  induction ks with
  | nil => intro m p hp; exact ⟨hp, by simp⟩
  | cons k ks ih =>
    intro m p hp
    rw [List.foldl_cons] at hp
    obtain ⟨h1, h2⟩ := ih (mapErase m k) p hp
    obtain ⟨h3, h4⟩ := mem_mapErase m k p h1
    exact ⟨h3, by simp [h2, h4]⟩

/-- A record that survives `StopConflictingAnimations` and is still active
does not conflict with the new property. -/
theorem stopConflicting_surviving_not_conflicting (st : WindowApiState)
    (prop : AnimationPropertyType) (p : ℕ × WindowAnimation)
    (hp : p ∈ (StopConflictingAnimations st prop).1.active_animations)
    (hact : p.2.is_active = true) :
    conflictsWith prop p.2.property = false := by
  by_contra hc
  have hc2 : conflictsWith prop p.2.property = true := by
    revert hc; cases conflictsWith prop p.2.property <;> simp
  rw [StopConflictingAnimations, stopFold_state] at hp
  obtain ⟨h1, h2⟩ := mem_foldl_mapErase _ _ _ hp
  refine h2 ?_
  refine List.mem_map.mpr ⟨p, List.mem_filter.mpr ⟨h1, ?_⟩, rfl⟩
  simp [hact, hc2]

/-- `StopConflictingAnimations` preserves everything but the registry. -/
theorem stopConflicting_fields (st : WindowApiState)
    (prop : AnimationPropertyType) :
    (StopConflictingAnimations st prop).1.window_handle = st.window_handle ∧
    (StopConflictingAnimations st prop).1.next_timer_id = st.next_timer_id ∧
    (StopConflictingAnimations st prop).1.spring_damping = st.spring_damping ∧
    (StopConflictingAnimations st prop).1.spring_stiffness =
      st.spring_stiffness := by
  rw [StopConflictingAnimations, stopFold_state]
  exact ⟨rfl, rfl, rfl, rfl⟩

/-- `StopConflictingAnimations` fires no completion callback. -/
theorem stopConflicting_no_callback (st : WindowApiState)
    (prop : AnimationPropertyType) (cb : ℕ) :
    AnimEvent.callbackFired cb ∉ (StopConflictingAnimations st prop).2 := by
  rw [StopConflictingAnimations]
  exact stopFold_no_callback _ st [] cb (by simp)

/-- An inactive (or null-window) record is not advanced: `Advance` is a
no-op on it. -/
theorem updateAnimation_noop (sp : SpringParams) (elapsed : ℝ)
    (anim : WindowAnimation) (h : anim.is_active = false ∨ anim.hwnd = none) :
    UpdateAnimation sp elapsed anim = (anim, []) := by
  unfold UpdateAnimation
  rw [if_pos h]

/-- Completion step of `UpdateAnimation` at `elapsed >= duration`. -/
theorem updateAnimation_complete (sp : SpringParams) (elapsed : ℝ)
    (anim : WindowAnimation) (h : ℕ)
    (hact : anim.is_active = true) (hw : anim.hwnd = some h)
    (hdur : (anim.duration : ℝ) ≤ elapsed) :
    UpdateAnimation sp elapsed anim =
      ({ anim with progress := 1, is_active := false },
        [.frameApplied h (animationFrameOutput anim 1), .dwmFlush,
          .timerKilled h anim.timer_id] ++
          (match anim.on_complete with
            | some cb => [.callbackFired cb]
            | none => [])) := by
  unfold UpdateAnimation
  rw [if_neg (by simp [hact, hw]), if_pos hdur]
  simp [ApplyAnimationFrame, hw]

/-- In-flight step of `UpdateAnimation` at `elapsed < duration`. -/
theorem updateAnimation_step (sp : SpringParams) (elapsed : ℝ)
    (anim : WindowAnimation) (h : ℕ)
    (hact : anim.is_active = true) (hw : anim.hwnd = some h)
    (hdur : ¬ (anim.duration : ℝ) ≤ elapsed) :
    UpdateAnimation sp elapsed anim =
      ({ anim with progress := elapsed / (anim.duration : ℝ) },
        [.frameApplied h (animationFrameOutput anim
            (CalculateEasing sp (elapsed / (anim.duration : ℝ)) anim.easing)),
          .dwmFlush]) := by
  unfold UpdateAnimation
  rw [if_neg (by simp [hact, hw]), if_neg hdur]
  simp [ApplyAnimationFrame, hw]

/-- Claim C1: when `Advance` (`UpdateAnimation`, driven from `OnTimer`) runs
with elapsed time at least the record's duration, it forces progress to 1.0,
applies the final frame at eased progress 1.0 (and the easing of `t = 1.0` is
exactly 1.0 for every kind), deactivates and removes the record, kills the
underlying timer, and fires the completion callback exactly once after the
state is settled; a subsequent tick for the same identifier is a no-op. -/
theorem advance_at_duration_completes (st : WindowApiState)
    (elapsed elapsed2 : ℝ) (tid : ℕ) (anim : WindowAnimation) (h : ℕ)
    (hlook : List.lookup tid st.active_animations = some anim)
    (hact : anim.is_active = true)
    (hw : anim.hwnd = some h)
    (hdur : (anim.duration : ℝ) ≤ elapsed) :
    OnTimer st elapsed tid =
      ({ st with active_animations := mapErase st.active_animations tid },
        [.frameApplied h (animationFrameOutput anim 1), .dwmFlush,
          .timerKilled h anim.timer_id] ++
          (match anim.on_complete with
            | some cb => [.callbackFired cb]
            | none => []),
        true) ∧
    CalculateEasing (springParams st) 1 anim.easing = 1 ∧
    (∀ cb, anim.on_complete = some cb →
      (OnTimer st elapsed tid).2.1.count (AnimEvent.callbackFired cb) = 1) ∧
    OnTimer (OnTimer st elapsed tid).1 elapsed2 tid =
      ((OnTimer st elapsed tid).1, [], false) := by
  have hupd := updateAnimation_complete (springParams st) elapsed anim h hact hw hdur
  have hmain : OnTimer st elapsed tid =
      ({ st with active_animations := mapErase st.active_animations tid },
        [.frameApplied h (animationFrameOutput anim 1), .dwmFlush,
          .timerKilled h anim.timer_id] ++
          (match anim.on_complete with
            | some cb => [.callbackFired cb]
            | none => []),
        true) := by
    unfold OnTimer
    rw [hlook]
    simp only [hact, Bool.true_eq_false, if_neg, ite_false, hupd]
    simp [mapErase_mapInsert_self]
  refine ⟨hmain, calcEasing_one _ _, ?_, ?_⟩
  · intro cb hcb
    rw [hmain]
    cases hoc : anim.on_complete with
    | none => rw [hoc] at hcb; cases hcb
    | some cb2 =>
      rw [hoc] at hcb
      cases hcb
      simp [List.count_cons, List.count_append]
  · rw [hmain]
    unfold OnTimer
    rw [lookup_mapErase_self]

/-- A concrete in-flight position animation used by witnesses. -/
def sampleAnim : WindowAnimation :=
  { timer_id := 1000, hwnd := some 7, property := .kPosition,
    easing := .kLinear, target_x := 100, target_y := 100, duration := 300,
    on_complete := some 5, is_active := true }

/-- A concrete controller state holding `sampleAnim` under id 1000. -/
def sampleState : WindowApiState :=
  { window_handle := some (some 7),
    active_animations := [(1000, sampleAnim)],
    next_timer_id := 1001 }

/-- Witness for claim C1: `sampleAnim` (duration 300 ms) advanced at
elapsed = 300 ms completes, and the next tick for id 1000 is a no-op. -/
theorem advance_at_duration_witness :
    OnTimer sampleState 300 1000 =
      ({ sampleState with active_animations := [] },
        [.frameApplied 7 (animationFrameOutput sampleAnim 1), .dwmFlush,
          .timerKilled 7 1000, .callbackFired 5], true) ∧
    (OnTimer sampleState 300 1000).2.1.count (AnimEvent.callbackFired 5) = 1 ∧
    OnTimer (OnTimer sampleState 300 1000).1 316 1000 =
      ((OnTimer sampleState 300 1000).1, [], false) := by
  have h := advance_at_duration_completes sampleState 300 316 1000 sampleAnim 7
    (by rfl) rfl rfl (by norm_num [sampleAnim])
  refine ⟨?_, h.2.2.1 5 rfl, h.2.2.2⟩
  rw [h.1]
  rfl

/-- Claim C6: `StopAnimation` never fires a completion callback; when the
identifier is present it kills the record's timer and erases the record; the
identifier is absent afterwards, so a second `StopAnimation` on the same
identifier is a no-op that leaves the registry unchanged. -/
theorem stop_animation_idempotent (st : WindowApiState) (tid : ℕ) :
    (∀ cb, AnimEvent.callbackFired cb ∉ (StopAnimation st tid).2) ∧
    (∀ anim, List.lookup tid st.active_animations = some anim →
      (StopAnimation st tid).1 =
        { st with active_animations := mapErase st.active_animations tid } ∧
      (∀ h, anim.hwnd = some h →
        AnimEvent.timerKilled h tid ∈ (StopAnimation st tid).2)) ∧
    List.lookup tid (StopAnimation st tid).1.active_animations = none ∧
    StopAnimation (StopAnimation st tid).1 tid =
      ((StopAnimation st tid).1, []) := by
  have hstate := stopAnimation_state st tid
  have hnone : List.lookup tid (StopAnimation st tid).1.active_animations =
      none := by
    rw [hstate]
    exact lookup_mapErase_self _ _
  refine ⟨fun cb => stopAnimation_no_callback st tid cb, ?_, hnone, ?_⟩
  · intro anim hlook
    refine ⟨hstate, ?_⟩
    intro h hw
    simp [StopAnimation, hlook, hw]
  · generalize hS : (StopAnimation st tid).1 = st' at hnone ⊢
    unfold StopAnimation
    rw [hnone]

/-- Witness for claim C6 on `sampleState`: stopping id 1000 erases it and
kills its timer; stopping it again does nothing. -/
theorem stop_animation_witness :
    (StopAnimation sampleState 1000).1.active_animations = [] ∧
    AnimEvent.timerKilled 7 1000 ∈ (StopAnimation sampleState 1000).2 ∧
    List.lookup 1000 (StopAnimation sampleState 1000).1.active_animations =
      none ∧
    StopAnimation (StopAnimation sampleState 1000).1 1000 =
      ((StopAnimation sampleState 1000).1, []) := by
  have h := stop_animation_idempotent sampleState 1000
  have h2 := h.2.1 sampleAnim (by rfl)
  refine ⟨?_, h2.2 7 rfl, h.2.2.1, h.2.2.2⟩
  rw [h2.1]
  rfl

/-- Claim C4: on a scheduler tick, if the elapsed time measured from the
high-resolution clock exceeds 100 ms, the delta delivered to every registered
consumer is 16 ms; otherwise the measured elapsed time is delivered.
(The hypothesis says the cached snapshot is current whenever the dirty flag
is clear, which registration maintains by setting the flag on mutation.) -/
theorem tick_delta_capped (st : WindowApiTimerState) (now : ℝ)
    (hclean : st.windowApis_dirty = false →
      st.windowApis_cache = st.windowApis) :
    (∀ c d, TickEvent.tickDelivered c d ∈ (OnTick st now).2 →
      d = if 100 < now - st.last_tick_time_ms then 16
          else now - st.last_tick_time_ms) ∧
    (∀ c ∈ st.windowApis,
      TickEvent.tickDelivered c
        (if 100 < now - st.last_tick_time_ms then 16
          else now - st.last_tick_time_ms) ∈ (OnTick st now).2) := by
  have hcache : (if st.windowApis_dirty = true then st.windowApis
      else st.windowApis_cache) = st.windowApis := by
    cases hd : st.windowApis_dirty with
    | false => simpa [hd] using hclean hd
    | true => simp
  constructor
  · intro c d hmem
    simp only [OnTick, hcache] at hmem
    obtain ⟨c', hc', heq⟩ := List.mem_map.mp hmem
    cases heq
    rfl
  · intro c hc
    simp only [OnTick, hcache]
    exact List.mem_map.mpr ⟨c, hc, rfl⟩

/-- A concrete scheduler state with one registered consumer and a clean
snapshot, last ticked at time 0. -/
def sampleTimerState : WindowApiTimerState :=
  { last_tick_time_ms := 0, windowApis := [1], windowApis_cache := [1],
    windowApis_dirty := false }

/-- Witness for claim C4: a 250 ms gap delivers a 16 ms delta. -/
theorem tick_delta_capped_witness :
    TickEvent.tickDelivered 1 16 ∈ (OnTick sampleTimerState 250).2 := by
  have h := (tick_delta_capped sampleTimerState 250 (fun _ => rfl)).2 1
    (by simp [sampleTimerState])
  have he : (if (100 : ℝ) < 250 - sampleTimerState.last_tick_time_ms then (16 : ℝ)
      else 250 - sampleTimerState.last_tick_time_ms) = 16 := by
    norm_num [sampleTimerState]
  rwa [he] at h

/-- The property switch of `StartAnimation` only fills start/target values:
identifier, handle, active flag and property kind are untouched. -/
theorem initAnimationValues_preserves (anim : WindowAnimation) (env : StartEnv)
    (req : AnimationRequest) (sf : ℝ) (hwnd : ℕ) :
    (initAnimationValues anim env req sf hwnd).1.timer_id = anim.timer_id ∧
    (initAnimationValues anim env req sf hwnd).1.hwnd = anim.hwnd ∧
    (initAnimationValues anim env req sf hwnd).1.is_active = anim.is_active ∧
    (initAnimationValues anim env req sf hwnd).1.property = anim.property := by
  unfold initAnimationValues
  cases req.property <;> dsimp only <;> (repeat' split) <;> simp

/-- The property switch of `StartAnimation` fires no completion callback. -/
theorem initAnimationValues_no_callback (anim : WindowAnimation)
    (env : StartEnv) (req : AnimationRequest) (sf : ℝ) (hwnd : ℕ) (cb : ℕ) :
    AnimEvent.callbackFired cb ∉
      (initAnimationValues anim env req sf hwnd).2 := by
  unfold initAnimationValues
  cases req.property <;> dsimp only <;> (repeat' split) <;> simp

/-- The spring override never touches the registry, the id counter or the
window pointer. -/
theorem startSpringOverride_fields (st1 : WindowApiState)
    (req : AnimationRequest) :
    (startSpringOverride st1 req).active_animations = st1.active_animations ∧
    (startSpringOverride st1 req).next_timer_id = st1.next_timer_id ∧
    (startSpringOverride st1 req).window_handle = st1.window_handle := by
  unfold startSpringOverride
  split <;> exact ⟨rfl, rfl, rfl⟩

/-- With `use_custom_spring` set the override stores the raw request
values. -/
theorem startSpringOverride_custom (st1 : WindowApiState)
    (req : AnimationRequest) (h : req.use_custom_spring = true) :
    (startSpringOverride st1 req).spring_damping = req.spring_damping ∧
    (startSpringOverride st1 req).spring_stiffness = req.spring_stiffness := by
  unfold startSpringOverride
  rw [if_pos h]
  exact ⟨rfl, rfl⟩

/-- The identifier returned by the success path is the previous value of the
`next_timer_id_` counter. -/
theorem startAnimationCore_ret (st : WindowApiState) (env : StartEnv)
    (req : AnimationRequest) (hwnd : ℕ) :
    (startAnimationCore st env req hwnd).2.2 = st.next_timer_id := by
  show (initAnimationValues
      (startAnim0 (startSpringOverride
        (StopConflictingAnimations st req.property).1 req) env req hwnd
        ((env.dpi : ℝ) / 96))
      env req ((env.dpi : ℝ) / 96) hwnd).1.timer_id = st.next_timer_id
  rw [(initAnimationValues_preserves _ _ _ _ _).1]
  show (startSpringOverride
      (StopConflictingAnimations st req.property).1 req).next_timer_id =
    st.next_timer_id
  rw [(startSpringOverride_fields _ _).2.1]
  exact (stopConflicting_fields st req.property).2.1

/-- Claim C5: when the owning window pointer or its window handle is null,
`StartAnimation` returns the sentinel 0 and leaves all state unchanged with
no events (no record stored, nothing stopped, no spring change, no timer
armed); on a valid window the returned identifier is at least the base 1000
(given the counter invariant), hence never 0. -/
theorem start_animation_invalid_window (st : WindowApiState) (env : StartEnv)
    (req : AnimationRequest) (hbase : 1000 ≤ st.next_timer_id) :
    ((st.window_handle = none ∨ st.window_handle = some none) →
      StartAnimation st env req = (st, [], 0)) ∧
    (∀ hwnd, st.window_handle = some (some hwnd) →
      1000 ≤ (StartAnimation st env req).2.2 ∧
      (StartAnimation st env req).2.2 ≠ 0) := by
  constructor
  · rintro (h | h) <;> simp [StartAnimation, h]
  · intro hwnd h
    have hr : (StartAnimation st env req).2.2 = st.next_timer_id := by
      simp only [StartAnimation, h]
      exact startAnimationCore_ret st env req hwnd
    rw [hr]
    exact ⟨hbase, by omega⟩

/-- A controller whose `window_` pointer is null. -/
def nullWindowState : WindowApiState := { window_handle := none }

/-- A concrete OS environment for `StartAnimation` witnesses: 96 DPI, a
10-pixel shadow on each side, window not layered. -/
def sampleEnv : StartEnv :=
  { dpi := 96, dwm_frame_ok := true,
    frame_rect := ⟨10, 10, 110, 110⟩, window_rect := ⟨0, 0, 120, 120⟩,
    fallback_window_rect := some ⟨0, 0, 120, 120⟩,
    ex_style_layered := false, layered_attrs := none }

/-- Witness for claim C5: a null window yields `(unchanged, no events, 0)`;
a valid window yields an identifier at least 1000. -/
theorem start_animation_invalid_window_witness :
    StartAnimation nullWindowState sampleEnv {} = (nullWindowState, [], 0) ∧
    1000 ≤ (StartAnimation sampleState sampleEnv {}).2.2 := by
  refine ⟨(start_animation_invalid_window nullWindowState sampleEnv {}
    (by decide)).1 (Or.inl rfl), ?_⟩
  exact ((start_animation_invalid_window sampleState sampleEnv {}
    (by decide)).2 7 rfl).1

/-- Claim C2: starting an animation stops every active animation in a
conflicting class: in the post-state every still-active record whose property
conflicts with the new one is the new record itself, the new record is
registered and active under the returned identifier with the requested
property, and no completion callback of an evicted animation is fired during
the call. -/
theorem start_animation_conflict_eviction (st : WindowApiState)
    (env : StartEnv) (req : AnimationRequest) (hwnd : ℕ)
    (hw : st.window_handle = some (some hwnd)) :
    (∀ p ∈ (StartAnimation st env req).1.active_animations,
      p.2.is_active = true → conflictsWith req.property p.2.property = true →
      p.1 = (StartAnimation st env req).2.2) ∧
    (∃ a, List.lookup (StartAnimation st env req).2.2
        (StartAnimation st env req).1.active_animations = some a ∧
      a.is_active = true ∧ a.property = req.property) ∧
    (∀ cb, AnimEvent.callbackFired cb ∉ (StartAnimation st env req).2.1) := by
  simp only [StartAnimation, hw]
  have hpres := initAnimationValues_preserves
    (startAnim0 (startSpringOverride
      (StopConflictingAnimations st req.property).1 req) env req hwnd
      ((env.dpi : ℝ) / 96))
    env req ((env.dpi : ℝ) / 96) hwnd
  set a := (initAnimationValues
    (startAnim0 (startSpringOverride
      (StopConflictingAnimations st req.property).1 req) env req hwnd
      ((env.dpi : ℝ) / 96))
    env req ((env.dpi : ℝ) / 96) hwnd).1 with ha
  have hmap : (startAnimationCore st env req hwnd).1.active_animations =
      mapInsert (startSpringOverride
        (StopConflictingAnimations st req.property).1 req).active_animations
        a.timer_id a := rfl
  have hret : (startAnimationCore st env req hwnd).2.2 = a.timer_id := rfl
  have hevs : (startAnimationCore st env req hwnd).2.1 =
      (StopConflictingAnimations st req.property).2 ++
        (initAnimationValues
          (startAnim0 (startSpringOverride
            (StopConflictingAnimations st req.property).1 req) env req hwnd
            ((env.dpi : ℝ) / 96))
          env req ((env.dpi : ℝ) / 96) hwnd).2 ++
        [.timerSet hwnd a.timer_id] := rfl
  have hact : a.is_active = true := by rw [ha, hpres.2.2.1]; rfl
  have hprop : a.property = req.property := by rw [ha, hpres.2.2.2]; rfl
  refine ⟨?_, ?_, ?_⟩
  · intro p hp hpact hpconf
    rw [hmap] at hp
    rcases List.mem_cons.mp hp with heq | hmem
    · rw [hret, heq]
    · obtain ⟨hmem2, _⟩ := mem_mapErase _ _ _ hmem
      rw [(startSpringOverride_fields _ _).1] at hmem2
      have := stopConflicting_surviving_not_conflicting st req.property p
        hmem2 hpact
      rw [this] at hpconf
      cases hpconf
  · exact ⟨a, by rw [hret, hmap]; exact lookup_mapInsert_self _ _ _,
      hact, hprop⟩
  · intro cb hmem
    rw [hevs] at hmem
    rcases List.mem_append.mp hmem with hmem1 | hmem1
    · rcases List.mem_append.mp hmem1 with hmem2 | hmem2
      · exact stopConflicting_no_callback st req.property cb hmem2
      · exact initAnimationValues_no_callback _ _ _ _ _ cb hmem2
    · simp at hmem1

/-- A Bounds request that conflicts with the in-flight Position animation of
`sampleState`. -/
def boundsReq : AnimationRequest :=
  { property := .kBounds, easing := .kLinear, target_x := 50, target_y := 50,
    target_width := 200, target_height := 200, on_complete := some 9 }

/-- Witness for claim C2: starting a Bounds animation over the active
Position animation of `sampleState` registers the new record and does not
fire the evicted animation's callback (token 5). -/
theorem start_animation_conflict_eviction_witness :
    List.lookup (StartAnimation sampleState sampleEnv boundsReq).2.2
      (StartAnimation sampleState sampleEnv boundsReq).1.active_animations ≠
      none ∧
    AnimEvent.callbackFired 5 ∉
      (StartAnimation sampleState sampleEnv boundsReq).2.1 := by
  have h := start_animation_conflict_eviction sampleState sampleEnv boundsReq
    7 rfl
  obtain ⟨a, ha, -, -⟩ := h.2.1
  exact ⟨by rw [ha]; simp, h.2.2 5⟩

/-- Claim C9: with `use_custom_spring` set, `StartAnimation` stores the
request's raw spring values in the controller members, with no clamping. -/
theorem custom_spring_stored_raw (st : WindowApiState) (env : StartEnv)
    (req : AnimationRequest) (hwnd : ℕ)
    (hw : st.window_handle = some (some hwnd))
    (hcs : req.use_custom_spring = true) :
    (StartAnimation st env req).1.spring_damping = req.spring_damping ∧
    (StartAnimation st env req).1.spring_stiffness = req.spring_stiffness := by
  simp only [StartAnimation, hw]
  constructor
  · show (startSpringOverride
        (StopConflictingAnimations st req.property).1 req).spring_damping =
      req.spring_damping
    exact (startSpringOverride_custom _ _ hcs).1
  · show (startSpringOverride
        (StopConflictingAnimations st req.property).1 req).spring_stiffness =
      req.spring_stiffness
    exact (startSpringOverride_custom _ _ hcs).2

/-- A request carrying out-of-range custom spring values. -/
def customSpringReq : AnimationRequest :=
  { property := .kPosition, easing := .kSpringBounce, target_x := 10,
    use_custom_spring := true, spring_damping := 5, spring_stiffness := 1000 }

/-- Witness for claim C9: damping 5 and stiffness 1000 lie outside the
`SetSpringParameters` clamp ranges yet are stored verbatim. -/
theorem custom_spring_stored_raw_witness :
    (StartAnimation sampleState sampleEnv customSpringReq).1.spring_damping =
      5 ∧
    (StartAnimation sampleState sampleEnv
      customSpringReq).1.spring_stiffness = 1000 ∧
    (2 : ℝ) < 5 ∧ (500 : ℝ) < 1000 := by
  have h := custom_spring_stored_raw sampleState sampleEnv customSpringReq 7
    rfl rfl
  exact ⟨by rw [h.1]; rfl, by rw [h.2]; rfl, by norm_num, by norm_num⟩

/-- The opacity branch of the property switch: start opacity defaults to 1
(and the layered style is set) when the window was not layered before the
call, regardless of any layered-attributes reading; when it was layered and
the alpha flag is set, the current alpha is used. -/
theorem initAnimationValues_opacity (anim : WindowAnimation) (env : StartEnv)
    (req : AnimationRequest) (sf : ℝ) (hwnd : ℕ)
    (hprop : req.property = .kOpacity) :
    (env.ex_style_layered = false →
      (initAnimationValues anim env req sf hwnd).1.start_opacity = 1 ∧
      (initAnimationValues anim env req sf hwnd).2 =
        [AnimEvent.layeredStyleSet hwnd]) ∧
    (∀ alpha, env.ex_style_layered = true →
      env.layered_attrs = some (alpha, true) →
      (initAnimationValues anim env req sf hwnd).1.start_opacity =
        (alpha : ℝ) / 255) := by
  unfold initAnimationValues
  rw [hprop]
  constructor
  · intro hlay
    constructor <;> simp [hlay]
  · intro alpha hlay hattr
    simp [hlay, hattr]

/-- Claim C10: starting an Opacity animation on a window whose extended
style lacked the layered flag marks the window layered and records start
opacity 1.0 without reading the current alpha (the stored value is 1 for
every possible layered-attributes reading); the current alpha becomes the
start opacity only when the window was layered before the call with the
alpha flag set. -/
theorem opacity_start_value (st : WindowApiState) (env : StartEnv)
    (req : AnimationRequest) (hwnd alpha : ℕ)
    (hw : st.window_handle = some (some hwnd))
    (hprop : req.property = .kOpacity) :
    (env.ex_style_layered = false →
      Option.map WindowAnimation.start_opacity
        (List.lookup (StartAnimation st env req).2.2
          (StartAnimation st env req).1.active_animations) = some 1 ∧
      AnimEvent.layeredStyleSet hwnd ∈ (StartAnimation st env req).2.1) ∧
    (env.ex_style_layered = true → env.layered_attrs = some (alpha, true) →
      Option.map WindowAnimation.start_opacity
        (List.lookup (StartAnimation st env req).2.2
          (StartAnimation st env req).1.active_animations) =
        some ((alpha : ℝ) / 255)) := by
  simp only [StartAnimation, hw]
  have hop := initAnimationValues_opacity
    (startAnim0 (startSpringOverride
      (StopConflictingAnimations st req.property).1 req) env req hwnd
      ((env.dpi : ℝ) / 96))
    env req ((env.dpi : ℝ) / 96) hwnd hprop
  set a := (initAnimationValues
    (startAnim0 (startSpringOverride
      (StopConflictingAnimations st req.property).1 req) env req hwnd
      ((env.dpi : ℝ) / 96))
    env req ((env.dpi : ℝ) / 96) hwnd).1 with ha
  have hlookup : List.lookup (startAnimationCore st env req hwnd).2.2
      (startAnimationCore st env req hwnd).1.active_animations = some a :=
    lookup_mapInsert_self _ _ _
  have hevs : (startAnimationCore st env req hwnd).2.1 =
      (StopConflictingAnimations st req.property).2 ++
        (initAnimationValues
          (startAnim0 (startSpringOverride
            (StopConflictingAnimations st req.property).1 req) env req hwnd
            ((env.dpi : ℝ) / 96))
          env req ((env.dpi : ℝ) / 96) hwnd).2 ++
        [.timerSet hwnd a.timer_id] := rfl
  constructor
  · intro hlay
    obtain ⟨hop1, hop2⟩ := hop.1 hlay
    refine ⟨?_, ?_⟩
    · rw [hlookup]
      simp [hop1]
    · rw [hevs, hop2]
      simp
  · intro hlay hattr
    have hop1 := hop.2 alpha hlay hattr
    rw [hlookup]
    simp [hop1]

/-- A concrete environment whose window is already layered with alpha 128. -/
def layeredEnv : StartEnv :=
  { dpi := 96, dwm_frame_ok := true,
    frame_rect := ⟨10, 10, 110, 110⟩, window_rect := ⟨0, 0, 120, 120⟩,
    fallback_window_rect := some ⟨0, 0, 120, 120⟩,
    ex_style_layered := true, layered_attrs := some (128, true) }

/-- A concrete fade-out request. -/
def opacityReq : AnimationRequest :=
  { property := .kOpacity, easing := .kEaseOut, target_opacity := 0 }

/-- Witness for claim C10: on the non-layered `sampleEnv` the stored start
opacity is 1 and the layered style is set; on `layeredEnv` (alpha 128) the
stored start opacity is 128/255. -/
theorem opacity_start_value_witness :
    Option.map WindowAnimation.start_opacity
      (List.lookup (StartAnimation sampleState sampleEnv opacityReq).2.2
        (StartAnimation sampleState sampleEnv
          opacityReq).1.active_animations) = some 1 ∧
    AnimEvent.layeredStyleSet 7 ∈
      (StartAnimation sampleState sampleEnv opacityReq).2.1 ∧
    Option.map WindowAnimation.start_opacity
      (List.lookup (StartAnimation sampleState layeredEnv opacityReq).2.2
        (StartAnimation sampleState layeredEnv
          opacityReq).1.active_animations) = some ((128 : ℝ) / 255) := by
  have h1 := opacity_start_value sampleState sampleEnv opacityReq 7 128
    rfl rfl
  have h2 := opacity_start_value sampleState layeredEnv opacityReq 7 128
    rfl rfl
  exact ⟨(h1.1 rfl).1, (h1.1 rfl).2, h2.2 rfl rfl⟩

/-- A concrete in-flight SpringBounce animation whose captured spring
parameters are damping 0.5, stiffness 100. -/
def springAnim : WindowAnimation :=
  { timer_id := 1000, hwnd := some 7, property := .kPosition,
    easing := .kSpringBounce, target_x := 100, target_y := 100,
    duration := 300, spring_damping := 0.5, spring_stiffness := 100,
    is_active := true }

/-- The controller owning `springAnim`, its members still (0.5, 100). -/
def springState : WindowApiState :=
  { window_handle := some (some 7),
    active_animations := [(1000, springAnim)],
    next_timer_id := 1001, spring_damping := 0.5, spring_stiffness := 100 }

/-- Claim C8, behavior of the code at the failing input:
`SetSpringParameters` does clamp (in-range `(1.2, 300)` is stored as is,
out-of-range `(5, 1000)` is clamped to `(2, 500)`), but a spring animation
already in flight is NOT eased from the parameters captured at its start:
after `SetSpringParameters(1.2, 300)` the next `UpdateAnimation` tick of
`springAnim` (captured damping 0.5 ≠ 1.2) computes its frame from the new
live members `(1.2, 300)`. -/
theorem spring_params_affect_inflight :
    SetSpringParameters springState 1.2 300 =
      { springState with spring_damping := 1.2, spring_stiffness := 300 } ∧
    SetSpringParameters springState 5 1000 =
      { springState with spring_damping := 2, spring_stiffness := 500 } ∧
    (UpdateAnimation (springParams (SetSpringParameters springState 1.2 300))
        150 springAnim).2 =
      [.frameApplied 7 (animationFrameOutput springAnim
          (CalculateSpringBounce (1 / 2) 1.2 300)), .dwmFlush] ∧
    springAnim.spring_damping = 0.5 ∧ (0.5 : ℝ) ≠ 1.2 := by
  have hset : SetSpringParameters springState 1.2 300 =
      { springState with spring_damping := 1.2, spring_stiffness := 300 } := by
    unfold SetSpringParameters
    have h1 : max 0.1 (min 2 (1.2 : ℝ)) = 1.2 := by norm_num
    have h2 : max 10 (min 500 (300 : ℝ)) = 300 := by norm_num
    rw [h1, h2]
  have hset2 : SetSpringParameters springState 5 1000 =
      { springState with spring_damping := 2, spring_stiffness := 500 } := by
    unfold SetSpringParameters
    have h1 : max 0.1 (min 2 (5 : ℝ)) = 2 := by norm_num
    have h2 : max 10 (min 500 (1000 : ℝ)) = 500 := by norm_num
    rw [h1, h2]
  have hstep := updateAnimation_step
    (springParams (SetSpringParameters springState 1.2 300)) 150 springAnim 7
    rfl rfl (by norm_num [springAnim])
  have heased : CalculateEasing
      (springParams (SetSpringParameters springState 1.2 300))
      (150 / (springAnim.duration : ℝ)) springAnim.easing =
      CalculateSpringBounce (1 / 2) 1.2 300 := by
    rw [hset]
    show CalculateEasing ⟨1.2, 300⟩ (150 / ((300 : ℕ) : ℝ)) .kSpringBounce =
      CalculateSpringBounce (1 / 2) 1.2 300
    unfold CalculateEasing
    norm_num
  refine ⟨hset, hset2, ?_, rfl, by norm_num⟩
  rw [hstep, heased]
